import Mathlib

/-!
Verification of the futures_encho trading core against its specification.

The definitions below are shallow embeddings of the Python sources:
machine floats become exact rationals, dictionaries become structures,
raised exceptions become explicit error values, and SQLite tables become
lists of rows.  Each embedded definition names the source function it
models.
-/

namespace FuturesEncho

/-! ## Kelly position sizing (src/utils/kelly_utils.py) -/

/-- Configuration surface used by KellyCalculator: the KELLY_SETTINGS
dictionary of src/config.py together with Config.MIN_INVESTMENT_AMOUNT. -/
structure KellyConfig where
  max_position_size : ℚ
  kelly_fraction : ℚ
  min_conviction : ℚ
  max_leverage : ℤ
  min_investment_amount : ℚ
deriving DecidableEq, Repr

/-- The default configuration values of src/config.py
(MAX_POSITION_SIZE 0.5, KELLY_FRACTION 0.25, MIN_CONVICTION 0.55,
MAX_LEVERAGE 10, MIN_INVESTMENT_AMOUNT 100). -/
def defaultKellyConfig : KellyConfig :=
  { max_position_size := 1/2
    kelly_fraction := 1/4
    min_conviction := 11/20
    max_leverage := 10
    min_investment_amount := 100 }

/-- The ValueError raised by KellyCalculator._validate_inputs, by check. -/
inductive InputError
  | convictionOutOfRange
  | slOutOfRange
  | tpOutOfRange
  | balanceNotPositive
  | tpNotAboveSl
deriving DecidableEq, Repr

/-- Embedding of KellyCalculator._validate_inputs: the checks run in
source order and the first failing one raises. -/
def validateInputs (conviction sl_percent tp_percent available_balance : ℚ) :
    Option InputError :=
  if ¬ (0 ≤ conviction ∧ conviction ≤ 1) then some InputError.convictionOutOfRange
  else if ¬ (0 < sl_percent ∧ sl_percent < 1) then some InputError.slOutOfRange
  else if ¬ (0 < tp_percent ∧ tp_percent < 1) then some InputError.tpOutOfRange
  else if available_balance ≤ 0 then some InputError.balanceNotPositive
  else if tp_percent ≤ sl_percent then some InputError.tpNotAboveSl
  else none

/-- Reason tag for the no-position result dictionary
(KellyCalculator._no_position_result). -/
inductive RejectReason
  | convictionBelowMinimum
  | positionTooSmall
deriving DecidableEq, Repr

/-- The kelly_details sub-dictionary of a successful sizing result. -/
structure KellyDetails where
  raw_kelly : ℚ
  adjusted_kelly : ℚ
  winLoss : ℚ
  safety_factor : ℚ
deriving DecidableEq, Repr

/-- The risk_metrics sub-dictionary of a successful sizing result. -/
structure RiskMetrics where
  max_loss_amount : ℚ
  max_loss_percent : ℚ
  expected_gain : ℚ
  rewardOverRisk : ℚ
deriving DecidableEq, Repr

/-- The dictionary returned by KellyCalculator.calculate_position_size. -/
structure SizingResult where
  success : Bool
  reason : Option RejectReason
  position_fraction : ℚ
  investment_amount : ℚ
  btc_amount : ℚ
  leverage : ℤ
  kelly_details : Option KellyDetails
  risk_metrics : Option RiskMetrics
deriving DecidableEq, Repr

/-- Embedding of KellyCalculator._no_position_result. -/
def noPositionResult (r : RejectReason) : SizingResult :=
  { success := false
    reason := some r
    position_fraction := 0
    investment_amount := 0
    btc_amount := 0
    leverage := 1
    kelly_details := none
    risk_metrics := none }

/-- Embedding of KellyCalculator._calculate_optimal_leverage:
base leverage is the minimum of the conviction-scaled bound and the
stop-loss bound, clamped into the range one to max_leverage, and finally
capped at 5 when the stop-loss fraction is at least 5 percent. -/
def calculateOptimalLeverage (conviction sl_percent : ℚ) (max_leverage : ℤ) : ℤ :=
  let base_leverage : ℤ := min ⌊conviction * 20⌋ ⌊(1/10) / sl_percent⌋
  let safe_leverage : ℤ := max 1 (min base_leverage max_leverage)
  if 1/20 ≤ sl_percent then min safe_leverage 5 else safe_leverage

/-- Embedding of KellyCalculator.calculate_position_size.  Raised
ValueError becomes the error side of Except.  A max_leverage argument of
none or zero falls back to the configured value, because the source uses
the Python truthiness idiom for the default. -/
def calculatePositionSize (cfg : KellyConfig)
    (conviction sl_percent tp_percent available_balance current_price : ℚ)
    (max_leverage : Option ℤ) : Except InputError SizingResult :=
  match validateInputs conviction sl_percent tp_percent available_balance with
  | some e => Except.error e
  | none =>
    if conviction < cfg.min_conviction then
      Except.ok (noPositionResult RejectReason.convictionBelowMinimum)
    else
      let winLoss := tp_percent / sl_percent
      let kelly_fraction := (conviction * winLoss - (1 - conviction)) / winLoss
      let adjusted_kelly := kelly_fraction * cfg.kelly_fraction
      let position_fraction := min adjusted_kelly cfg.max_position_size
      if position_fraction ≤ 1/100 then
        Except.ok (noPositionResult RejectReason.positionTooSmall)
      else
        let investment_amount :=
          max (available_balance * position_fraction) cfg.min_investment_amount
        let max_lev : ℤ :=
          match max_leverage with
          | some v => if v = 0 then cfg.max_leverage else v
          | none => cfg.max_leverage
        let optimal_leverage := calculateOptimalLeverage conviction sl_percent max_lev
        let btc_amount : ℚ := (⌈(investment_amount / current_price) * 1000⌉ : ℚ) / 1000
        let actual_investment := btc_amount * current_price
        let actual_position_fraction := actual_investment / available_balance
        Except.ok
          { success := true
            reason := none
            position_fraction := actual_position_fraction
            investment_amount := actual_investment
            btc_amount := btc_amount
            leverage := optimal_leverage
            kelly_details := some
              { raw_kelly := kelly_fraction
                adjusted_kelly := adjusted_kelly
                winLoss := winLoss
                safety_factor := cfg.kelly_fraction }
            risk_metrics := some
              { max_loss_amount := actual_investment * sl_percent * optimal_leverage
                max_loss_percent :=
                  actual_investment * sl_percent * optimal_leverage / available_balance
                expected_gain :=
                  actual_investment * tp_percent * optimal_leverage * conviction
                rewardOverRisk := tp_percent / sl_percent } }

/-- Key algebraic identity: the source computes the Kelly fraction as
(p * b - q) / b, which equals the textbook form p - q / b. -/
theorem kelly_fraction_forms (conviction sl tp : ℚ) (hs0 : 0 < sl) (ht0 : 0 < tp) :
    (conviction * (tp / sl) - (1 - conviction)) / (tp / sl)
      = conviction - (1 - conviction) / (tp / sl) := by
  have hsne : sl ≠ 0 := ne_of_gt hs0
  have htne : tp ≠ 0 := ne_of_gt ht0
  field_simp
  ring

/-- C3 counterexample: with conviction 0.30 (below the 0.55 minimum) but
take-profit 0.02 below stop-loss 0.03, calculate_position_size raises
ValueError from input validation instead of returning a rejected result. -/
theorem sizing_raises_below_min_conviction :
    calculatePositionSize defaultKellyConfig (3/10) (3/100) (1/50) 1000 50000 none
      = Except.error InputError.tpNotAboveSl := by
  norm_num [calculatePositionSize, validateInputs]

/-- C3 (amended): for inputs that pass validation (conviction in the unit
interval, stop-loss and take-profit strictly between 0 and 1 with
stop-loss below take-profit, positive balance), a conviction below the
configured minimum yields the rejected result with success false and zero
position fraction, investment and amount, without raising. -/
theorem sizing_rejects_below_min_conviction (cfg : KellyConfig)
    (conviction sl tp bal price : ℚ) (m : Option ℤ)
    (hc0 : 0 ≤ conviction) (hc1 : conviction ≤ 1)
    (hs0 : 0 < sl) (hs1 : sl < 1) (ht0 : 0 < tp) (ht1 : tp < 1)
    (hb : 0 < bal) (hst : sl < tp)
    (hmin : conviction < cfg.min_conviction) :
    calculatePositionSize cfg conviction sl tp bal price m
      = Except.ok (noPositionResult RejectReason.convictionBelowMinimum) := by
  have hv : validateInputs conviction sl tp bal = none := by
    unfold validateInputs
    rw [if_neg (not_not_intro ⟨hc0, hc1⟩), if_neg (not_not_intro ⟨hs0, hs1⟩),
      if_neg (not_not_intro ⟨ht0, ht1⟩), if_neg (not_le.mpr hb),
      if_neg (not_le.mpr hst)]
  simp only [calculatePositionSize, hv, if_pos hmin]

/-- C3 witness: concrete instantiation of the amended rejection theorem. -/
theorem sizing_rejects_below_min_conviction_witness :
    calculatePositionSize defaultKellyConfig (3/10) (3/100) (3/50) 10000 50000 none
      = Except.ok (noPositionResult RejectReason.convictionBelowMinimum) :=
  sizing_rejects_below_min_conviction defaultKellyConfig (3/10) (3/100) (3/50)
    10000 50000 none (by norm_num) (by norm_num) (by norm_num) (by norm_num)
    (by norm_num) (by norm_num) (by norm_num) (by norm_num)
    (by norm_num [defaultKellyConfig])

/-- C4: the selected leverage is exactly the claimed formula
min(floor(conviction * 20), floor(0.1 / sl), max_leverage) floored at 1,
it always lies between 1 and max_leverage, it is at most 5 whenever the
stop-loss fraction exceeds 5 percent, and conviction 0.65 with stop-loss
0.03 yields min(13, 3) = 3 before the max_leverage cap. -/
theorem optimal_leverage_formula (conviction sl_percent : ℚ) (max_leverage : ℤ)
    (hc0 : 0 ≤ conviction) (hc1 : conviction ≤ 1)
    (hs0 : 0 < sl_percent) (hs1 : sl_percent < 1) (hm : 1 ≤ max_leverage) :
    calculateOptimalLeverage conviction sl_percent max_leverage
      = max 1 (min (min ⌊conviction * 20⌋ ⌊(1/10) / sl_percent⌋) max_leverage)
    ∧ 1 ≤ calculateOptimalLeverage conviction sl_percent max_leverage
    ∧ calculateOptimalLeverage conviction sl_percent max_leverage ≤ max_leverage
    ∧ (1/20 < sl_percent → calculateOptimalLeverage conviction sl_percent max_leverage ≤ 5)
    ∧ calculateOptimalLeverage (13/20) (3/100) max_leverage = min 3 max_leverage := by
  have hfloor2 : (1:ℚ)/20 ≤ sl_percent → ⌊(1/10) / sl_percent⌋ ≤ (2:ℤ) := by
    intro h5
    have hx : (1/10 : ℚ) / sl_percent ≤ 2 := by
      rw [div_le_iff₀ hs0]; linarith
    calc ⌊(1/10 : ℚ) / sl_percent⌋ ≤ ⌊(2:ℚ)⌋ := Int.floor_le_floor hx
      _ = 2 := by norm_num
  have hclamp : min (min ⌊conviction * 20⌋ ⌊(1/10) / sl_percent⌋) max_leverage
      ≤ ⌊(1/10) / sl_percent⌋ :=
    le_trans (min_le_left _ _) (min_le_right _ _)
  have hEq : calculateOptimalLeverage conviction sl_percent max_leverage
      = max 1 (min (min ⌊conviction * 20⌋ ⌊(1/10) / sl_percent⌋) max_leverage) := by
    unfold calculateOptimalLeverage
    by_cases h5 : (1:ℚ)/20 ≤ sl_percent
    · rw [if_pos h5]
      exact min_eq_left (max_le (by norm_num)
        (le_trans hclamp (le_trans (hfloor2 h5) (by norm_num))))
    · rw [if_neg h5]
  refine ⟨hEq, ?_, ?_, ?_, ?_⟩
  · rw [hEq]; exact le_max_left _ _
  · rw [hEq]; exact max_le hm (min_le_right _ _)
  · intro h5
    rw [hEq]
    exact max_le (by norm_num)
      (le_trans hclamp (le_trans (hfloor2 (le_of_lt h5)) (by norm_num)))
  · have ha : ⌊(13/20 : ℚ) * 20⌋ = (13:ℤ) := by
      rw [show (13/20 : ℚ) * 20 = ((13:ℤ) : ℚ) by norm_num, Int.floor_intCast]
    have hb3 : ⌊(1/10 : ℚ) / (3/100)⌋ = (3:ℤ) := by
      rw [show (1/10 : ℚ) / (3/100) = 10/3 by norm_num]
      rw [Int.floor_eq_iff]
      norm_num
    unfold calculateOptimalLeverage
    rw [if_neg (by norm_num), ha, hb3]
    rw [show min (13:ℤ) 3 = 3 by norm_num]
    exact max_eq_right (le_min (by norm_num) hm)

/-- C2 counterexample: conviction 0.65, stop-loss 0.03, take-profit 0.06,
balance 150 USDT, price 50000.  The pre-floor fraction is 0.11875, so the
investment 17.81 is floored to the minimum investment 100, and the
reported actual position fraction 100 / 150 = 2/3 exceeds the configured
max_position_size of 0.5. -/
theorem sizing_fraction_exceeds_max :
    calculatePositionSize defaultKellyConfig (13/20) (3/100) (3/50) 150 50000 none
      = Except.ok
          { success := true
            reason := none
            position_fraction := 2/3
            investment_amount := 100
            btc_amount := 1/500
            leverage := 3
            kelly_details := some
              { raw_kelly := 19/40
                adjusted_kelly := 19/160
                winLoss := 2
                safety_factor := 1/4 }
            risk_metrics := some
              { max_loss_amount := 9
                max_loss_percent := 3/50
                expected_gain := 117/10
                rewardOverRisk := 2 } }
    ∧ defaultKellyConfig.max_position_size < 2/3 := by
  constructor
  · norm_num [calculatePositionSize, validateInputs, calculateOptimalLeverage,
      defaultKellyConfig, noPositionResult]
  · norm_num [defaultKellyConfig]

/-- C2 (amended): on every successful sizing result the recorded raw Kelly
fraction is conviction minus (1 - conviction) divided by the win-loss
quotient b = tp / sl, the adjusted fraction is the raw fraction times the
configured damping factor, and the fraction min(adjusted, max_position_size)
used to size the investment never exceeds max_position_size.  The reported
position_fraction is recomputed as actual investment over balance after
the minimum-investment floor and the 0.001 BTC ceiling rounding, and can
exceed max_position_size. -/
theorem sizing_success_fields (cfg : KellyConfig)
    (conviction sl tp bal price : ℚ) (m : Option ℤ) (r : SizingResult)
    (hs0 : 0 < sl) (ht0 : 0 < tp)
    (hr : calculatePositionSize cfg conviction sl tp bal price m = Except.ok r)
    (hsucc : r.success = true) :
    r.kelly_details = some
      { raw_kelly := conviction - (1 - conviction) / (tp / sl)
        adjusted_kelly := (conviction - (1 - conviction) / (tp / sl)) * cfg.kelly_fraction
        winLoss := tp / sl
        safety_factor := cfg.kelly_fraction }
    ∧ min ((conviction - (1 - conviction) / (tp / sl)) * cfg.kelly_fraction)
        cfg.max_position_size ≤ cfg.max_position_size
    ∧ r.investment_amount = r.btc_amount * price
    ∧ r.position_fraction = r.investment_amount / bal
    ∧ r.btc_amount =
        (⌈(max (bal * min ((conviction - (1 - conviction) / (tp / sl)) * cfg.kelly_fraction)
            cfg.max_position_size) cfg.min_investment_amount / price) * 1000⌉ : ℚ) / 1000 := by
  have halg := kelly_fraction_forms conviction sl tp hs0 ht0
  simp only [calculatePositionSize] at hr
  split at hr
  · exact absurd hr (by simp)
  · split at hr
    · simp only [Except.ok.injEq] at hr
      rw [← hr] at hsucc
      simp [noPositionResult] at hsucc
    · split at hr
      · simp only [Except.ok.injEq] at hr
        rw [← hr] at hsucc
        simp [noPositionResult] at hsucc
      · simp only [Except.ok.injEq] at hr
        subst hr
        refine ⟨?_, min_le_right _ _, rfl, rfl, ?_⟩
        · simp only [halg]
        · simp only [halg]

/-- C2 witness: the amended theorem instantiated at the worked example of
the spec (conviction 0.65, sl 0.03, tp 0.06, balance 10000, price 50000). -/
theorem sizing_success_fields_witness :
    (({ success := true
        reason := none
        position_fraction := 3/25
        investment_amount := 1200
        btc_amount := 3/125
        leverage := 3
        kelly_details := some
          { raw_kelly := 19/40
            adjusted_kelly := 19/160
            winLoss := 2
            safety_factor := 1/4 }
        risk_metrics := some
          { max_loss_amount := 108
            max_loss_percent := 27/2500
            expected_gain := 702/5
            rewardOverRisk := 2 } } : SizingResult).kelly_details = some
      { raw_kelly := 13/20 - (1 - 13/20) / ((3/50) / (3/100))
        adjusted_kelly :=
          (13/20 - (1 - 13/20) / ((3/50) / (3/100))) * defaultKellyConfig.kelly_fraction
        winLoss := (3/50) / (3/100)
        safety_factor := defaultKellyConfig.kelly_fraction })
    ∧ min ((13/20 - (1 - 13/20) / ((3/50) / (3/100))) * defaultKellyConfig.kelly_fraction)
        defaultKellyConfig.max_position_size ≤ defaultKellyConfig.max_position_size
    ∧ (1200 : ℚ) = (3/125) * 50000
    ∧ (3/25 : ℚ) = 1200 / 10000
    ∧ (3/125 : ℚ) =
        (⌈(max ((10000 : ℚ) * min ((13/20 - (1 - 13/20) / ((3/50) / (3/100)))
            * defaultKellyConfig.kelly_fraction) defaultKellyConfig.max_position_size)
            defaultKellyConfig.min_investment_amount / 50000) * 1000⌉ : ℚ) / 1000 :=
  sizing_success_fields defaultKellyConfig (13/20) (3/100) (3/50) 10000 50000 none
    _ (by norm_num) (by norm_num)
    (by
      have h24 : (⌈(95/4 : ℚ)⌉ : ℤ) = 24 := by
        rw [Int.ceil_eq_iff]; norm_num
      norm_num [calculatePositionSize, validateInputs, calculateOptimalLeverage,
        defaultKellyConfig, h24])
    rfl

/-- C4 witness: leverage formula instantiated at conviction 0.65,
stop-loss 0.03, max_leverage 10. -/
theorem optimal_leverage_formula_witness :
    calculateOptimalLeverage (13/20) (3/100) 10
      = max 1 (min (min ⌊(13/20 : ℚ) * 20⌋ ⌊(1/10 : ℚ) / (3/100)⌋) 10)
    ∧ 1 ≤ calculateOptimalLeverage (13/20) (3/100) 10
    ∧ calculateOptimalLeverage (13/20) (3/100) 10 ≤ 10
    ∧ ((1:ℚ)/20 < 3/100 → calculateOptimalLeverage (13/20) (3/100) 10 ≤ 5)
    ∧ calculateOptimalLeverage (13/20) (3/100) 10 = min 3 10 :=
  optimal_leverage_formula (13/20) (3/100) 10 (by norm_num) (by norm_num)
    (by norm_num) (by norm_num) (by norm_num)

/-! ## Simulated executor (src/trading/test_executor.py) -/

/-- Position side as stored in the simulated position dictionary. -/
inductive Side
  | long
  | short
deriving DecidableEq, Repr

/-- The current_position dictionary of TestExecutor. -/
structure SimPosition where
  side : Side
  amount : ℚ
  entry_price : ℚ
deriving DecidableEq, Repr

/-- Mutable state of a TestExecutor instance.  market_price models the
_current_market_price attribute, which may be unset (getattr default). -/
structure TestExecutorState where
  initial_balance : ℚ
  current_balance : ℚ
  current_position : Option SimPosition
  order_id_counter : Nat
  closing_in_progress : Bool
  last_trigger_check : ℚ
  market_price : Option ℚ
deriving DecidableEq, Repr

/-- A Python runtime error surfaced by the executor methods. -/
inductive PyError
  | nameErrorTime
  | zeroDivision
deriving DecidableEq, Repr

/-- Trigger kind returned by check_sl_tp_triggers. -/
inductive TriggerKind
  | stop_loss
  | take_profit
deriving DecidableEq, Repr

/-- Embedding of TestExecutor.check_sl_tp_triggers exactly as written:
src/trading/test_executor.py never imports the time module, so the very
first statement of the body, current_time = time.time(), raises NameError
on every call before any comparison happens. -/
def check_sl_tp_triggers (s : TestExecutorState)
    (now current_price sl_price tp_price : ℚ) :
    Except PyError (Option TriggerKind × TestExecutorState) :=
  Except.error PyError.nameErrorTime

/-- The body of check_sl_tp_triggers as it executes once the time import
slip is repaired (real_executor.py imports time for the same pattern):
a debounce of half a second, then direction-aware comparisons - for a
long position, stop loss at price at or below sl_price and take profit
at price at or above tp_price; mirrored for a short position. -/
def check_sl_tp_triggersIntended (s : TestExecutorState)
    (now current_price sl_price tp_price : ℚ) :
    Option TriggerKind × TestExecutorState :=
  if now - s.last_trigger_check < 1/2 then (none, s)
  else
    let s1 := { s with last_trigger_check := now }
    match s1.current_position with
    | none => (none, s1)
    | some p =>
      match p.side with
      | Side.long =>
        if current_price ≤ sl_price then (some TriggerKind.stop_loss, s1)
        else if tp_price ≤ current_price then (some TriggerKind.take_profit, s1)
        else (none, s1)
      | Side.short =>
        if sl_price ≤ current_price then (some TriggerKind.stop_loss, s1)
        else if current_price ≤ tp_price then (some TriggerKind.take_profit, s1)
        else (none, s1)

/-- A fresh simulated state holding one open position of 0.1 BTC. -/
def openState (side : Side) (entry : ℚ) : TestExecutorState :=
  { initial_balance := 10000
    current_balance := 10000
    current_position := some { side := side, amount := 1/10, entry_price := entry }
    order_id_counter := 2
    closing_in_progress := false
    last_trigger_check := 0
    market_price := none }

/-- Failure tag of a close_position result. -/
inductive CloseFailure
  | noOpenPosition
  | alreadyClosing
  | divisionError
deriving DecidableEq, Repr

/-- Result dictionary of TestExecutor.close_position. -/
inductive CloseResult
  | failed (why : CloseFailure)
  | closed (side : Side) (amount entry_price exit_price profit_loss pnl_pct : ℚ)
      (order_counter : Nat)
deriving DecidableEq, Repr

/-- Realized profit and loss of a position at a given exit price. -/
def realizedPnl (p : SimPosition) (exit_price : ℚ) : ℚ :=
  match p.side with
  | Side.long => (exit_price - p.entry_price) * p.amount
  | Side.short => (p.entry_price - exit_price) * p.amount

/-- Percentage profit and loss as computed by close_position. -/
def pnlPercent (p : SimPosition) (exit_price : ℚ) : ℚ :=
  match p.side with
  | Side.long => (exit_price / p.entry_price - 1) * 100
  | Side.short => (1 - exit_price / p.entry_price) * 100

/-- Embedding of TestExecutor.close_position: an early failure return when
no position is open, an early failure return when a close is already in
progress, otherwise the closing flag is set, the realized profit or loss
is computed and added to the balance, the position is cleared, and the
flag is cleared again on the finally path even when the body raises
(ZeroDivisionError when the entry price is zero). -/
def close_position (s : TestExecutorState) : CloseResult × TestExecutorState :=
  match s.current_position with
  | none => (CloseResult.failed CloseFailure.noOpenPosition, s)
  | some p =>
    if s.closing_in_progress then
      (CloseResult.failed CloseFailure.alreadyClosing, s)
    else
      let exit_price := s.market_price.getD p.entry_price
      if p.entry_price = 0 then
        (CloseResult.failed CloseFailure.divisionError,
         { s with closing_in_progress := false })
      else
        (CloseResult.closed p.side p.amount p.entry_price exit_price
           (realizedPnl p exit_price) (pnlPercent p exit_price) s.order_id_counter,
         { s with
            current_balance := s.current_balance + realizedPnl p exit_price
            current_position := none
            order_id_counter := s.order_id_counter + 1
            closing_in_progress := false })

/-- C5: as shipped, every call of TestExecutor.check_sl_tp_triggers raises
NameError because test_executor.py never imports time; the spec-described
direction-aware comparisons are what the body computes once that slip is
repaired, as witnessed on all five example inputs of the claim (long with
entry 100, sl 95, tp 110 at prices 94, 111 and 102; short with sl 105,
tp 90 at prices 106 and 89). -/
theorem trigger_check_name_error :
    check_sl_tp_triggers (openState Side.long 100) 1000 94 95 110
      = Except.error PyError.nameErrorTime
    ∧ (check_sl_tp_triggersIntended (openState Side.long 100) 1000 94 95 110).1
        = some TriggerKind.stop_loss
    ∧ (check_sl_tp_triggersIntended (openState Side.long 100) 1000 111 95 110).1
        = some TriggerKind.take_profit
    ∧ (check_sl_tp_triggersIntended (openState Side.long 100) 1000 102 95 110).1
        = none
    ∧ (check_sl_tp_triggersIntended (openState Side.short 100) 1000 106 105 90).1
        = some TriggerKind.stop_loss
    ∧ (check_sl_tp_triggersIntended (openState Side.short 100) 1000 89 105 90).1
        = some TriggerKind.take_profit := by
  refine ⟨rfl, ?_, ?_, ?_, ?_, ?_⟩ <;>
    norm_num [check_sl_tp_triggersIntended, openState]

/-- C6: from a state with one open position and the closing flag clear,
two successive close_position calls perform exactly one realized profit
and loss balance update and one position-clearing close; the second call
returns a failure result and changes nothing, and the closing flag is
clear again after each call. -/
theorem close_position_single_close (s : TestExecutorState) (p : SimPosition)
    (hp : s.current_position = some p) (hf : s.closing_in_progress = false)
    (he : p.entry_price ≠ 0) :
    (close_position s).1
      = CloseResult.closed p.side p.amount p.entry_price
          (s.market_price.getD p.entry_price)
          (realizedPnl p (s.market_price.getD p.entry_price))
          (pnlPercent p (s.market_price.getD p.entry_price)) s.order_id_counter
    ∧ (close_position s).2.current_position = none
    ∧ (close_position s).2.current_balance
        = s.current_balance + realizedPnl p (s.market_price.getD p.entry_price)
    ∧ (close_position s).2.closing_in_progress = false
    ∧ (close_position (close_position s).2).1
        = CloseResult.failed CloseFailure.noOpenPosition
    ∧ (close_position (close_position s).2).2 = (close_position s).2 := by
  have hstep : close_position s
      = (CloseResult.closed p.side p.amount p.entry_price
           (s.market_price.getD p.entry_price)
           (realizedPnl p (s.market_price.getD p.entry_price))
           (pnlPercent p (s.market_price.getD p.entry_price)) s.order_id_counter,
         { s with
            current_balance :=
              s.current_balance + realizedPnl p (s.market_price.getD p.entry_price)
            current_position := none
            order_id_counter := s.order_id_counter + 1
            closing_in_progress := false }) := by
    simp [close_position, hp, hf, he]
  have hstep2 : close_position
      ({ s with
          current_balance :=
            s.current_balance + realizedPnl p (s.market_price.getD p.entry_price)
          current_position := none
          order_id_counter := s.order_id_counter + 1
          closing_in_progress := false })
      = (CloseResult.failed CloseFailure.noOpenPosition,
         { s with
            current_balance :=
              s.current_balance + realizedPnl p (s.market_price.getD p.entry_price)
            current_position := none
            order_id_counter := s.order_id_counter + 1
            closing_in_progress := false }) := by
    simp [close_position]
  rw [hstep]
  refine ⟨rfl, rfl, rfl, rfl, ?_, ?_⟩ <;> rw [hstep2]

/-- Concrete state used by the C6 witness: a long position of 0.1 BTC
entered at 100 with the market now at 110. -/
def closeWitnessState : TestExecutorState :=
  { openState Side.long 100 with market_price := some 110 }

/-- C6 witness: the double-close theorem instantiated at a concrete open
long position. -/
theorem close_position_single_close_witness :
    (close_position closeWitnessState).1
      = CloseResult.closed Side.long (1/10) 100
          (closeWitnessState.market_price.getD 100)
          (realizedPnl { side := Side.long, amount := 1/10, entry_price := 100 }
            (closeWitnessState.market_price.getD 100))
          (pnlPercent { side := Side.long, amount := 1/10, entry_price := 100 }
            (closeWitnessState.market_price.getD 100))
          closeWitnessState.order_id_counter
    ∧ (close_position closeWitnessState).2.current_position = none
    ∧ (close_position closeWitnessState).2.current_balance
        = closeWitnessState.current_balance
          + realizedPnl { side := Side.long, amount := 1/10, entry_price := 100 }
              (closeWitnessState.market_price.getD 100)
    ∧ (close_position closeWitnessState).2.closing_in_progress = false
    ∧ (close_position (close_position closeWitnessState).2).1
        = CloseResult.failed CloseFailure.noOpenPosition
    ∧ (close_position (close_position closeWitnessState).2).2
        = (close_position closeWitnessState).2 :=
  close_position_single_close closeWitnessState
    { side := Side.long, amount := 1/10, entry_price := 100 }
    rfl rfl (by norm_num)

/-! ## Signal cache (src/utils/db.py)

Timestamps are integers; the SQLite ISO-8601 text comparisons of the
source are order-isomorphic to integer comparisons.  A NULL expiry_time
column becomes an Option that is none. -/

/-- A row of the chain_results table. -/
structure ChainRow where
  id : Nat
  chain_name : String
  timestamp : ℤ
  result_data : String
  expiry_time : Option ℤ
  model_used : Option String
  processing_time : Option ℚ
deriving DecidableEq, Repr

/-- A row of the news_summary table (expiry_time is NOT NULL). -/
structure NewsRow where
  id : Nat
  timestamp : ℤ
  articles_count : Nat
  summary_data : String
  sentiment_score : ℚ
  expiry_time : ℤ
deriving DecidableEq, Repr

/-- A row of the trend_summary table (expiry_time is NOT NULL). -/
structure TrendRow where
  id : Nat
  timeframe : String
  timestamp : ℤ
  trend_data : String
  confidence : ℚ
  expiry_time : ℤ
deriving DecidableEq, Repr

/-- A row of the performance_summary table (expiry_time is NOT NULL). -/
structure PerfRow where
  id : Nat
  timestamp : ℤ
  summary_data : String
  total_trades : Nat
  win_rate : ℚ
  avg_return : ℚ
  expiry_time : ℤ
deriving DecidableEq, Repr

/-- The four cached tables managed by ChainDB. -/
structure ChainStore where
  chain_results : List ChainRow
  news_summary : List NewsRow
  trend_summary : List TrendRow
  performance_summary : List PerfRow
deriving DecidableEq, Repr

/-- The empty database. -/
def emptyStore : ChainStore :=
  { chain_results := [], news_summary := [], trend_summary := [], performance_summary := [] }

/-- The SQL filter expiry_time IS NULL OR expiry_time > now used by
get_latest_chain_result. -/
def expiryLive (expiry : Option ℤ) (now : ℤ) : Bool :=
  match expiry with
  | none => true
  | some e => now < e

/-- The optional timestamp > now - max_age filter of
get_latest_chain_result.  The source guards it with Python truthiness
(if max_age_seconds:), so the filter is skipped both for None and for 0. -/
def maxAgeOk (ts now : ℤ) (max_age : Option ℤ) : Bool :=
  match max_age with
  | none => true
  | some m => if m = 0 then true else decide (now - m < ts)

/-- Picks the later of two rows in the ORDER BY timestamp DESC sense,
with the row id breaking ties the way later inserts win. -/
def laterRow (a b : ChainRow) : ChainRow :=
  if a.timestamp < b.timestamp ∨ (a.timestamp = b.timestamp ∧ a.id < b.id) then b else a

/-- Embedding of ChainDB.get_latest_chain_result: filter the
chain_results table by chain name, non-expiry and the optional maximum
age, then take the most recent qualifying row. -/
def get_latest_chain_result (st : ChainStore) (now : ℤ) (chain : String)
    (max_age : Option ℤ) : Option ChainRow :=
  match st.chain_results.filter
      (fun r => r.chain_name == chain && expiryLive r.expiry_time now
        && maxAgeOk r.timestamp now max_age) with
  | [] => none
  | h :: t => some (t.foldl laterRow h)

/-- Embedding of ChainDB.save_chain_result: the row is appended with
timestamp now; expiry_time is now plus the TTL, except that a TTL of
None or 0 stores NULL because the source guards the computation with
Python truthiness (if ttl_seconds:). -/
def save_chain_result (st : ChainStore) (now : ℤ) (chain result_data : String)
    (ttl_seconds : Option ℤ) (model_used : Option String)
    (processing_time : Option ℚ) : Nat × ChainStore :=
  let expiry : Option ℤ :=
    match ttl_seconds with
    | none => none
    | some t => if t = 0 then none else some (now + t)
  let rid := st.chain_results.length + 1
  (rid,
   { st with
      chain_results := st.chain_results ++
        [{ id := rid, chain_name := chain, timestamp := now,
           result_data := result_data, expiry_time := expiry,
           model_used := model_used, processing_time := processing_time }] })

/-- The SQL DELETE ... WHERE expiry_time <= now predicate on a nullable
expiry column: comparison with NULL is not satisfied, so NULL rows are
never deleted. -/
def sqlExpired (expiry : Option ℤ) (now : ℤ) : Bool :=
  match expiry with
  | none => false
  | some e => e ≤ now

/-- Embedding of ChainDB.cleanup_expired_cache: delete the rows whose
expiry_time is at or before now from all four cached tables, returning
the number of deleted rows and the swept store. -/
def cleanup_expired_cache (st : ChainStore) (now : ℤ) : Nat × ChainStore :=
  let cr := st.chain_results.filter (fun r => !sqlExpired r.expiry_time now)
  let ns := st.news_summary.filter (fun r => !decide (r.expiry_time ≤ now))
  let ts := st.trend_summary.filter (fun r => !decide (r.expiry_time ≤ now))
  let ps := st.performance_summary.filter (fun r => !decide (r.expiry_time ≤ now))
  (st.chain_results.length - cr.length + (st.news_summary.length - ns.length)
     + (st.trend_summary.length - ts.length)
     + (st.performance_summary.length - ps.length),
   { chain_results := cr, news_summary := ns, trend_summary := ts,
     performance_summary := ps })

/-- laterRow returns one of its two arguments. -/
theorem laterRow_cases (a b : ChainRow) : laterRow a b = a ∨ laterRow a b = b := by
  unfold laterRow
  split
  · exact Or.inr rfl
  · exact Or.inl rfl

/-- Both arguments of laterRow have timestamps at most the result. -/
theorem laterRow_ts (a b : ChainRow) :
    a.timestamp ≤ (laterRow a b).timestamp ∧ b.timestamp ≤ (laterRow a b).timestamp := by
  unfold laterRow
  split
  · next hc =>
    refine ⟨?_, le_rfl⟩
    rcases hc with hc | hc
    · exact le_of_lt hc
    · exact le_of_eq hc.1
  · next hc =>
    exact ⟨le_rfl, not_lt.mp (not_or.mp hc).1⟩

/-- The fold choosing the latest row stays inside the candidate list. -/
theorem foldl_laterRow_mem (l : List ChainRow) (h : ChainRow) :
    l.foldl laterRow h ∈ h :: l := by
  induction l generalizing h with
  | nil => simp
  | cons x xs ih =>
    simp only [List.foldl_cons]
    have hm := ih (laterRow h x)
    rcases List.mem_cons.mp hm with h1 | h1
    · rcases laterRow_cases h x with h2 | h2
      · rw [h1, h2]
        exact List.mem_cons_self _ _
      · rw [h1, h2]
        exact List.mem_cons.mpr (Or.inr (List.mem_cons_self _ _))
    · exact List.mem_cons.mpr (Or.inr (List.mem_cons.mpr (Or.inr h1)))

/-- Every candidate timestamp is at most the folded latest timestamp. -/
theorem foldl_laterRow_ts (l : List ChainRow) (h : ChainRow) :
    ∀ x ∈ h :: l, x.timestamp ≤ (l.foldl laterRow h).timestamp := by
  induction l generalizing h with
  | nil =>
    intro x hx
    rw [List.mem_singleton.mp hx]
    exact le_rfl
  | cons y ys ih =>
    intro x hx
    simp only [List.foldl_cons]
    have hkey := laterRow_ts h y
    have hhead := ih (laterRow h y) (laterRow h y) (List.mem_cons_self _ _)
    rcases List.mem_cons.mp hx with rfl | hx2
    · exact le_trans hkey.1 hhead
    · rcases List.mem_cons.mp hx2 with rfl | hx3
      · exact le_trans hkey.2 hhead
      · exact ih (laterRow h y) x (List.mem_cons.mpr (Or.inr hx3))

/-- A returned row is a member of the filtered candidate list. -/
theorem get_latest_mem (st : ChainStore) (now : ℤ) (chain : String)
    (ma : Option ℤ) (r : ChainRow)
    (h : get_latest_chain_result st now chain ma = some r) :
    r ∈ st.chain_results.filter
      (fun q => q.chain_name == chain && expiryLive q.expiry_time now
        && maxAgeOk q.timestamp now ma) := by
  unfold get_latest_chain_result at h
  split at h
  · exact absurd h (by simp)
  · next h0 t heq =>
    rw [heq]
    rw [← Option.some.inj h]
    exact foldl_laterRow_mem t h0

/-- A returned row is the most recent among the qualifying rows. -/
theorem get_latest_most_recent (st : ChainStore) (now : ℤ) (chain : String)
    (ma : Option ℤ) (r q : ChainRow)
    (h : get_latest_chain_result st now chain ma = some r)
    (hq : q ∈ st.chain_results) (hname : q.chain_name == chain)
    (hlive : expiryLive q.expiry_time now) (hage : maxAgeOk q.timestamp now ma) :
    q.timestamp ≤ r.timestamp := by
  have hqf : q ∈ st.chain_results.filter
      (fun v => v.chain_name == chain && expiryLive v.expiry_time now
        && maxAgeOk v.timestamp now ma) := by
    rw [List.mem_filter]
    exact ⟨hq, by rw [hname, hlive, hage]; rfl⟩
  unfold get_latest_chain_result at h
  split at h
  · exact absurd h (by simp)
  · next h0 t heq =>
    rw [← Option.some.inj h]
    rw [heq] at hqf
    exact foldl_laterRow_ts t h0 q hqf

/-- Row used by the C7 counterexample: stored at time 5 with NULL expiry. -/
def staleRow : ChainRow :=
  { id := 1, chain_name := "news", timestamp := 5, result_data := "r",
    expiry_time := none, model_used := none, processing_time := none }

/-- C7 counterexample: with max_age 0 given, get_latest_chain_result
returns a row that is older than now minus max_age, because the source
tests the argument with Python truthiness and 0 is falsy, skipping the
age filter entirely. -/
theorem get_latest_ignores_zero_max_age :
    get_latest_chain_result
        { chain_results := [staleRow], news_summary := [], trend_summary := [],
          performance_summary := [] } 10 "news" (some 0)
      = some staleRow
    ∧ staleRow.timestamp ≤ 10 - 0 := by
  constructor
  · rfl
  · decide

/-- C7 (amended): get_latest_chain_result never returns a row whose
expiry is at or before now, a positive max_age is respected (the most
recent qualifying row is returned), and after cleanup_expired_cache no
row with expiry at or before now remains in any of the four cached
tables; a max_age of 0 is ignored due to Python truthiness. -/
theorem cache_never_serves_stale (st : ChainStore) (now : ℤ) (chain : String)
    (ma : Option ℤ) (r : ChainRow)
    (h : get_latest_chain_result st now chain ma = some r) :
    expiryLive r.expiry_time now = true
    ∧ (∀ m : ℤ, ma = some m → 0 < m → now - m < r.timestamp)
    ∧ (∀ q ∈ st.chain_results, q.chain_name = chain →
        expiryLive q.expiry_time now = true → maxAgeOk q.timestamp now ma = true →
        q.timestamp ≤ r.timestamp)
    ∧ (∀ q ∈ ((cleanup_expired_cache st now).2).chain_results,
        sqlExpired q.expiry_time now = false)
    ∧ (∀ q ∈ ((cleanup_expired_cache st now).2).news_summary, ¬ q.expiry_time ≤ now)
    ∧ (∀ q ∈ ((cleanup_expired_cache st now).2).trend_summary, ¬ q.expiry_time ≤ now)
    ∧ (∀ q ∈ ((cleanup_expired_cache st now).2).performance_summary,
        ¬ q.expiry_time ≤ now) := by
  have hm := get_latest_mem st now chain ma r h
  rw [List.mem_filter] at hm
  obtain ⟨hmem, hpred⟩ := hm
  simp only [Bool.and_eq_true, beq_iff_eq] at hpred
  obtain ⟨⟨hname, hlive⟩, hage⟩ := hpred
  refine ⟨hlive, ?_, ?_, ?_, ?_, ?_, ?_⟩
  · intro m hma hmpos
    rw [hma] at hage
    simp only [maxAgeOk] at hage
    rw [if_neg (ne_of_gt hmpos)] at hage
    exact of_decide_eq_true hage
  · intro q hq hqname hqlive hqage
    exact get_latest_most_recent st now chain ma r q h hq
      (beq_iff_eq.mpr hqname) hqlive hqage
  · intro q hq
    simp only [cleanup_expired_cache, List.mem_filter, Bool.not_eq_true'] at hq
    exact hq.2
  · intro q hq
    simp only [cleanup_expired_cache, List.mem_filter, Bool.not_eq_true',
      decide_eq_false_iff_not] at hq
    exact hq.2
  · intro q hq
    simp only [cleanup_expired_cache, List.mem_filter, Bool.not_eq_true',
      decide_eq_false_iff_not] at hq
    exact hq.2
  · intro q hq
    simp only [cleanup_expired_cache, List.mem_filter, Bool.not_eq_true',
      decide_eq_false_iff_not] at hq
    exact hq.2

/-- Row and store used by the C7 witness: stored at time 9, expires at
time 100. -/
def liveRow : ChainRow :=
  { id := 2, chain_name := "news", timestamp := 9, result_data := "x",
    expiry_time := some 100, model_used := none, processing_time := none }

/-- Single-row store for the C7 witness. -/
def liveStore : ChainStore :=
  { chain_results := [liveRow], news_summary := [], trend_summary := [],
    performance_summary := [] }

/-- C7 witness: at time 10 with max_age 3, the returned row is live and
younger than now minus max_age. -/
theorem cache_never_serves_stale_witness :
    expiryLive liveRow.expiry_time 10 = true ∧ (10 - 3 : ℤ) < liveRow.timestamp :=
  have T := cache_never_serves_stale liveStore 10 "news" (some 3) liveRow rfl
  ⟨T.1, T.2.1 3 rfl (by norm_num)⟩

/-- C10: saving a chain result with a TTL of zero (or None) stores the
row with a NULL expiry_time; in a store where it is the only row the
getter returns it at any later time when no max_age is passed, and the
expiry sweep never deletes a NULL-expiry row, so a TTL of zero means
never expires rather than immediately expired. -/
theorem zero_ttl_never_expires (st : ChainStore) (now now2 : ℤ)
    (chain data : String) (mu : Option String) (pt : Option ℚ) (ttl : Option ℤ)
    (httl : ttl = none ∨ ttl = some 0) :
    (save_chain_result st now chain data ttl mu pt).2.chain_results
      = st.chain_results ++
        [{ id := st.chain_results.length + 1, chain_name := chain, timestamp := now,
           result_data := data, expiry_time := none, model_used := mu,
           processing_time := pt }]
    ∧ get_latest_chain_result (save_chain_result emptyStore now chain data ttl mu pt).2
        now2 chain none
      = some { id := 1, chain_name := chain, timestamp := now, result_data := data,
               expiry_time := none, model_used := mu, processing_time := pt }
    ∧ (∀ q ∈ st.chain_results, q.expiry_time = none →
        q ∈ ((cleanup_expired_cache st now2).2).chain_results) := by
  refine ⟨?_, ?_, ?_⟩
  · rcases httl with rfl | rfl <;> simp [save_chain_result]
  · rcases httl with rfl | rfl <;>
      simp [save_chain_result, emptyStore, get_latest_chain_result, expiryLive,
        maxAgeOk, List.filter]
  · intro q hq hnull
    simp only [cleanup_expired_cache, List.mem_filter]
    refine ⟨hq, ?_⟩
    rw [hnull]
    rfl

/-- Null-expiry row used by the C10 witness. -/
def nullExpiryRow : ChainRow :=
  { id := 7, chain_name := "market_1h", timestamp := 3, result_data := "d",
    expiry_time := none, model_used := none, processing_time := none }

/-- Single-row store for the C10 witness. -/
def nullExpiryStore : ChainStore :=
  { chain_results := [nullExpiryRow], news_summary := [], trend_summary := [],
    performance_summary := [] }

/-- C10 witness: TTL 0 saved at time 5 is still returned at time 1000000
and survives the sweep. -/
theorem zero_ttl_never_expires_witness :
    (save_chain_result nullExpiryStore 5 "news" "d" (some 0) none none).2.chain_results
      = nullExpiryStore.chain_results ++
        [{ id := nullExpiryStore.chain_results.length + 1, chain_name := "news",
           timestamp := 5, result_data := "d", expiry_time := none,
           model_used := none, processing_time := none }]
    ∧ get_latest_chain_result
        (save_chain_result emptyStore 5 "news" "d" (some 0) none none).2
        1000000 "news" none
      = some { id := 1, chain_name := "news", timestamp := 5, result_data := "d",
               expiry_time := none, model_used := none, processing_time := none }
    ∧ nullExpiryRow ∈ ((cleanup_expired_cache nullExpiryStore 1000000).2).chain_results :=
  have T := zero_ttl_never_expires nullExpiryStore 5 1000000 "news" "d" none none
    (some 0) (Or.inr rfl)
  ⟨T.1, T.2.1, T.2.2 nullExpiryRow (by simp [nullExpiryStore]) rfl⟩

/-! ## Oracle response validation (src/analysis/gemini_interface.py) -/

/-- A parsed trading decision as seen by _validate_response.  Option
models a missing JSON key; the numeric fields are rationals. -/
structure OracleDecision where
  direction : Option String
  recommended_position_size : Option ℚ
  recommended_leverage : Option ℚ
  stop_loss_percentage : Option ℚ
  take_profit_percentage : Option ℚ
  reasoning : Option String
deriving DecidableEq, Repr

/-- The ValueError raised by _validate_response, by check. -/
inductive ValidationFailure
  | missingField (field : String)
  | invalidDirection
  | positionSizeOutOfRange
  | leverageOutOfRange
  | invalidSlTp
deriving DecidableEq, Repr

/-- Embedding of GeminiInterface._validate_response: field presence is
checked first in declaration order, then direction, then position size
(with the NO_POSITION relaxation to the full unit interval), then
leverage bounds, then stop-loss and take-profit bounds. -/
def validateResponse (d : OracleDecision) : Except ValidationFailure Unit :=
  match d.direction, d.recommended_position_size, d.recommended_leverage,
      d.stop_loss_percentage, d.take_profit_percentage, d.reasoning with
  | none, _, _, _, _, _ => Except.error (ValidationFailure.missingField "direction")
  | some _, none, _, _, _, _ =>
      Except.error (ValidationFailure.missingField "recommended_position_size")
  | some _, some _, none, _, _, _ =>
      Except.error (ValidationFailure.missingField "recommended_leverage")
  | some _, some _, some _, none, _, _ =>
      Except.error (ValidationFailure.missingField "stop_loss_percentage")
  | some _, some _, some _, some _, none, _ =>
      Except.error (ValidationFailure.missingField "take_profit_percentage")
  | some _, some _, some _, some _, some _, none =>
      Except.error (ValidationFailure.missingField "reasoning")
  | some dir, some size, some lev, some sl, some tp, some _ =>
    if ¬ (dir = "LONG" ∨ dir = "SHORT" ∨ dir = "NO_POSITION") then
      Except.error ValidationFailure.invalidDirection
    else if dir = "NO_POSITION" then
      if ¬ (0 ≤ size ∧ size ≤ 1) then Except.error ValidationFailure.positionSizeOutOfRange
      else if ¬ (1 ≤ lev ∧ lev ≤ 20) then Except.error ValidationFailure.leverageOutOfRange
      else if ¬ (0 < sl ∧ sl < 1) ∨ ¬ (0 < tp ∧ tp < 1) then
        Except.error ValidationFailure.invalidSlTp
      else Except.ok ()
    else
      if ¬ (1/10 ≤ size ∧ size ≤ 1) then Except.error ValidationFailure.positionSizeOutOfRange
      else if ¬ (1 ≤ lev ∧ lev ≤ 20) then Except.error ValidationFailure.leverageOutOfRange
      else if ¬ (0 < sl ∧ sl < 1) ∨ ¬ (0 < tp ∧ tp < 1) then
        Except.error ValidationFailure.invalidSlTp
      else Except.ok ()

/-- Decision schema exactly as the spec states it: all six fields
present, direction in the three-value set, position size in the unit
interval and in the range 0.1 to 1 unless direction is NO_POSITION,
leverage an integer between 1 and 20, stop-loss and take-profit strictly
between 0 and 1. -/
def specSchemaOk (d : OracleDecision) : Bool :=
  match d.direction, d.recommended_position_size, d.recommended_leverage,
      d.stop_loss_percentage, d.take_profit_percentage, d.reasoning with
  | some dir, some size, some lev, some sl, some tp, some _ =>
    (dir == "LONG" || dir == "SHORT" || dir == "NO_POSITION")
    && (decide (0 ≤ size) && decide (size ≤ 1))
    && (dir == "NO_POSITION" || (decide (1/10 ≤ size) && decide (size ≤ 1)))
    && (lev.den == 1 && decide (1 ≤ lev) && decide (lev ≤ 20))
    && (decide (0 < sl) && decide (sl < 1) && decide (0 < tp) && decide (tp < 1))
  | _, _, _, _, _, _ => false

/-- Decision set the code actually accepts: the same schema except that
leverage integrality is not checked, so any rational value between 1 and
20 passes. -/
def codeSchemaOk (d : OracleDecision) : Bool :=
  match d.direction, d.recommended_position_size, d.recommended_leverage,
      d.stop_loss_percentage, d.take_profit_percentage, d.reasoning with
  | some dir, some size, some lev, some sl, some tp, some _ =>
    (dir == "LONG" || dir == "SHORT" || dir == "NO_POSITION")
    && (if dir == "NO_POSITION" then decide (0 ≤ size) && decide (size ≤ 1)
        else decide (1/10 ≤ size) && decide (size ≤ 1))
    && (decide (1 ≤ lev) && decide (lev ≤ 20))
    && (decide (0 < sl) && decide (sl < 1) && decide (0 < tp) && decide (tp < 1))
  | _, _, _, _, _, _ => false

/-- C8 counterexample: a decision with fractional leverage 2.5 deviates
from the schema (leverage must be an integer in the range 1 to 20) and
yet _validate_response accepts it without raising. -/
theorem validate_accepts_fractional_leverage :
    validateResponse
        { direction := some "LONG", recommended_position_size := some (1/2),
          recommended_leverage := some (5/2), stop_loss_percentage := some (1/50),
          take_profit_percentage := some (1/25), reasoning := some "ok" }
      = Except.ok ()
    ∧ specSchemaOk
        { direction := some "LONG", recommended_position_size := some (1/2),
          recommended_leverage := some (5/2), stop_loss_percentage := some (1/50),
          take_profit_percentage := some (1/25), reasoning := some "ok" }
      = false := by
  constructor
  · norm_num [validateResponse]
  · norm_num [specSchemaOk]

/-- C8 (amended): _validate_response accepts exactly the decisions with
all required fields present, a direction in LONG, SHORT, NO_POSITION, a
position size in the unit interval (at least 0.1 unless NO_POSITION),
any numeric leverage between 1 and 20 (integrality is not enforced), and
stop-loss and take-profit strictly between 0 and 1; every other decision,
including one with any missing field, raises ValueError. -/
theorem validate_iff_code_schema (d : OracleDecision) :
    validateResponse d = Except.ok () ↔ codeSchemaOk d = true := by
  rcases d with ⟨dir, size, lev, sl, tp, reasoning⟩
  rcases dir with _ | dir
  · simp [validateResponse, codeSchemaOk]
  rcases size with _ | size
  · simp [validateResponse, codeSchemaOk]
  rcases lev with _ | lev
  · simp [validateResponse, codeSchemaOk]
  rcases sl with _ | sl
  · simp [validateResponse, codeSchemaOk]
  rcases tp with _ | tp
  · simp [validateResponse, codeSchemaOk]
  rcases reasoning with _ | reasoning
  · simp [validateResponse, codeSchemaOk]
  simp only [validateResponse, codeSchemaOk, Bool.and_eq_true, Bool.or_eq_true,
    beq_iff_eq, decide_eq_true_eq]
  split_ifs <;> simp_all
  all_goals first
    | tauto
    | linarith
    | (intro hs1 hs2 ht1
       rcases (by assumption : (0 < sl → 1 ≤ sl) ∨ (0 < tp → 1 ≤ tp)) with hd | hd
       · exact absurd (hd hs1) (by linarith)
       · exact hd ht1)

/-- C8 witness: a fully conforming SHORT decision is accepted, via the
amended equivalence. -/
theorem validate_iff_code_schema_witness :
    codeSchemaOk
        { direction := some "SHORT", recommended_position_size := some (1/5),
          recommended_leverage := some 3, stop_loss_percentage := some (3/100),
          take_profit_percentage := some (3/50), reasoning := some "trend" }
      = true :=
  (validate_iff_code_schema
      { direction := some "SHORT", recommended_position_size := some (1/5),
        recommended_leverage := some 3, stop_loss_percentage := some (3/100),
        take_profit_percentage := some (3/50), reasoning := some "trend" }).mp
    (by norm_num [validateResponse])

/-! ## Startup readiness gate (src/scheduler.py) -/

/-- Outcome of one _run_chain_safe invocation during initialization: the
chain result reports success, reports failure, or the call raises. -/
inductive AttemptOutcome
  | ok
  | fail (err : String)
  | exc (err : String)
deriving DecidableEq, Repr

/-- The exponential backoff wait before retry number attempt, in seconds:
min(2 ^ attempt, 10) as computed by _initSingleChain. -/
def initWaitTime (attempt : Nat) : Nat := min (2 ^ attempt) 10

/-- Summary of one _initSingleChain run. -/
structure SingleChainInit where
  success : Bool
  waits : List Nat
  attempts_made : Nat
deriving DecidableEq, Repr

/-- The retry loop body of _initSingleChain: at each attempt
index below max_retries, wait (for attempts after the first), run the
chain, return success on a successful result and keep retrying
otherwise; when the attempts are exhausted the chain is declared
failed. -/
def initChainLoop (o : Nat → AttemptOutcome) (attempt : Nat) (fuel : Nat)
    (waits : List Nat) : SingleChainInit :=
  match fuel with
  | 0 => { success := false, waits := waits, attempts_made := attempt }
  | fuel2 + 1 =>
    let waits2 := if attempt > 0 then waits ++ [initWaitTime attempt] else waits
    match o attempt with
    | AttemptOutcome.ok =>
        { success := true, waits := waits2, attempts_made := attempt + 1 }
    | AttemptOutcome.fail _ => initChainLoop o (attempt + 1) fuel2 waits2
    | AttemptOutcome.exc _ => initChainLoop o (attempt + 1) fuel2 waits2

/-- Embedding of ChainScheduler._initSingleChain with its default
of three attempts. -/
def initSingleChain (o : Nat → AttemptOutcome) (max_retries : Nat) :
    SingleChainInit :=
  initChainLoop o 0 max_retries []

/-- The required chain sequence of _run_initial_chains, in execution
order. -/
def requiredChainSequence : List String :=
  ["news", "market_4h", "market_1h", "performance"]

/-- Whether a chain with the given per-attempt outcomes succeeds at
least once within its three initialization attempts. -/
def chainSucceedsInThreeAttempts (o : Nat → AttemptOutcome) : Bool :=
  o 0 == AttemptOutcome.ok || o 1 == AttemptOutcome.ok || o 2 == AttemptOutcome.ok

/-- Embedding of ChainScheduler._run_initial_chains: every required
chain is initialized in sequence with individual retries; the failed
chain names are collected and reported. -/
def run_initial_chains (o : String → Nat → AttemptOutcome) :
    List (String × SingleChainInit) × List String :=
  let results := requiredChainSequence.map (fun c => (c, initSingleChain (o c) 3))
  (results, (results.filter (fun r => !r.2.success)).map (fun r => r.1))

/-- Observable outcome of ChainScheduler.start: whether initialization
was marked complete, which chains the failure report names, how many
chains succeeded (get_initialization_status), whether the periodic
schedules were registered, and whether start raised. -/
structure StartOutcome where
  initialization_complete : Bool
  failed_chains : List String
  success_count : Nat
  periodic_jobs_registered : Bool
  raised : Bool
deriving DecidableEq, Repr

/-- Embedding of ChainScheduler.start: _run_initial_chains runs first;
when any required chain failed all its retries the method raises before
_setup_chain_schedules, leaving initialization incomplete; otherwise
initialization_complete is set and the periodic schedules are
registered. -/
def scheduler_start (o : String → Nat → AttemptOutcome) : StartOutcome :=
  let rf := run_initial_chains o
  let succ := (rf.1.filter (fun r => r.2.success)).length
  if rf.2.isEmpty then
    { initialization_complete := true
      failed_chains := []
      success_count := succ
      periodic_jobs_registered := true
      raised := false }
  else
    { initialization_complete := false
      failed_chains := rf.2
      success_count := succ
      periodic_jobs_registered := false
      raised := true }

/-- The waits recorded for a chain that made k attempts: one backoff
wait before each attempt after the first. -/
def waitsFor (k : Nat) : List Nat :=
  (List.range k).filterMap (fun a => if a = 0 then none else some (initWaitTime a))

/-- Per-chain characterization of the initialization retry loop: three
attempts at most, at least one, success exactly when some attempt
reports a successful result, and exponential backoff waits of
min(2 ^ attempt, 10) seconds before each retry. -/
theorem initSingleChain_spec (o : Nat → AttemptOutcome) :
    (initSingleChain o 3).success = chainSucceedsInThreeAttempts o
    ∧ 1 ≤ (initSingleChain o 3).attempts_made
    ∧ (initSingleChain o 3).attempts_made ≤ 3
    ∧ (initSingleChain o 3).waits
        = waitsFor (initSingleChain o 3).attempts_made := by
  rcases h0 : o 0 with _ | e0 | e0 <;> rcases h1 : o 1 with _ | e1 | e1 <;>
    rcases h2 : o 2 with _ | e2 | e2 <;>
    simp [initSingleChain, initChainLoop, chainSucceedsInThreeAttempts,
      h0, h1, h2, waitsFor, initWaitTime, List.range_succ]

/-- C1: start runs every required chain once with up to three attempts
each and backoff waits of min(2 ^ attempt, 10) seconds before retries;
it raises (and does not register the periodic schedules) exactly when
some required chain fails all its attempts, naming the failed chains in
the report, and it marks initialization complete exactly when all four
required chains succeeded at least once. -/
theorem startup_readiness_gate (o : String → Nat → AttemptOutcome) :
    ((run_initial_chains o).1.map (fun r => r.1) = requiredChainSequence)
    ∧ (∀ r ∈ (run_initial_chains o).1,
        1 ≤ r.2.attempts_made ∧ r.2.attempts_made ≤ 3
          ∧ r.2.waits = waitsFor r.2.attempts_made)
    ∧ (scheduler_start o).initialization_complete
        = requiredChainSequence.all (fun c => chainSucceedsInThreeAttempts (o c))
    ∧ (scheduler_start o).raised
        = !requiredChainSequence.all (fun c => chainSucceedsInThreeAttempts (o c))
    ∧ (scheduler_start o).periodic_jobs_registered
        = requiredChainSequence.all (fun c => chainSucceedsInThreeAttempts (o c))
    ∧ (scheduler_start o).failed_chains
        = requiredChainSequence.filter (fun c => !chainSucceedsInThreeAttempts (o c))
    ∧ (scheduler_start o).success_count
        = (requiredChainSequence.filter (fun c => chainSucceedsInThreeAttempts (o c))).length := by
  obtain ⟨hNs, hNa, hNb, hNw⟩ := initSingleChain_spec (o "news")
  obtain ⟨h4s, h4a, h4b, h4w⟩ := initSingleChain_spec (o "market_4h")
  obtain ⟨h1s, h1a, h1b, h1w⟩ := initSingleChain_spec (o "market_1h")
  obtain ⟨hPs, hPa, hPb, hPw⟩ := initSingleChain_spec (o "performance")
  refine ⟨?_, ?_, ?_⟩
  · simp [run_initial_chains, requiredChainSequence]
  · intro r hr
    simp only [run_initial_chains, requiredChainSequence, List.map_cons, List.map_nil,
      List.mem_cons, List.not_mem_nil, or_false] at hr
    rcases hr with rfl | rfl | rfl | rfl
    · exact ⟨hNa, hNb, hNw⟩
    · exact ⟨h4a, h4b, h4w⟩
    · exact ⟨h1a, h1b, h1w⟩
    · exact ⟨hPa, hPb, hPw⟩
  · cases hsN : chainSucceedsInThreeAttempts (o "news") <;>
      cases hs4 : chainSucceedsInThreeAttempts (o "market_4h") <;>
      cases hs1 : chainSucceedsInThreeAttempts (o "market_1h") <;>
      cases hsP : chainSucceedsInThreeAttempts (o "performance") <;>
      rw [hsN] at hNs <;> rw [hs4] at h4s <;> rw [hs1] at h1s <;> rw [hsP] at hPs <;>
      simp [scheduler_start, run_initial_chains, requiredChainSequence,
        hNs, h4s, h1s, hPs, hsN, hs4, hs1, hsP]

/-- Outcome family for the C1 witness: the market_1h chain always
reports failure, the other chains always succeed. -/
def failingOutcomes : String → Nat → AttemptOutcome :=
  fun c _ =>
    if c = "market_1h" then AttemptOutcome.fail "network down" else AttemptOutcome.ok

/-- C1 witness: with market_1h failing all retries, start raises, does
not mark initialization complete, reports the failed chain by name and
counts 3 of 4 successes. -/
theorem startup_readiness_gate_witness :
    (scheduler_start failingOutcomes).raised = true
    ∧ (scheduler_start failingOutcomes).initialization_complete = false
    ∧ (scheduler_start failingOutcomes).failed_chains = ["market_1h"]
    ∧ (scheduler_start failingOutcomes).success_count = 3 := by
  have T := startup_readiness_gate failingOutcomes
  refine ⟨?_, ?_, ?_, ?_⟩
  · rw [T.2.2.2.1]
    simp [requiredChainSequence, chainSucceedsInThreeAttempts, failingOutcomes]
  · rw [T.2.2.1]
    simp [requiredChainSequence, chainSucceedsInThreeAttempts, failingOutcomes]
  · rw [T.2.2.2.2.2.1]
    simp [requiredChainSequence, chainSucceedsInThreeAttempts, failingOutcomes]
  · rw [T.2.2.2.2.2.2]
    simp [requiredChainSequence, chainSucceedsInThreeAttempts, failingOutcomes]

/-! ## Single-flight periodic jobs (src/scheduler.py, APScheduler config)

The add_job configurations below are embedded from
_setup_chain_schedules.  The execution semantics of APScheduler itself
is external to the repository and is modelled from the spec. -/

/-- Configuration of one add_job call in _setup_chain_schedules. -/
structure JobConfig where
  id : String
  interval_seconds : Nat
  max_instances : Nat
  coalesce : Bool
  misfire_grace_time : Nat
deriving DecidableEq, Repr

/-- The four periodic chain jobs registered by _setup_chain_schedules,
with the default intervals of src/config.py. -/
def setup_chain_schedules : List JobConfig :=
  [{ id := "news_chain", interval_seconds := 7200, max_instances := 1,
     coalesce := true, misfire_grace_time := 300 },
   { id := "market_1h_chain", interval_seconds := 3600, max_instances := 1,
     coalesce := true, misfire_grace_time := 300 },
   { id := "market_4h_chain", interval_seconds := 14400, max_instances := 1,
     coalesce := true, misfire_grace_time := 600 },
   { id := "performance_chain", interval_seconds := 3600, max_instances := 1,
     coalesce := true, misfire_grace_time := 300 }]

/-- Number of concurrently running executions of one job. -/
structure JobRunState where
  running : Nat
deriving DecidableEq, Repr

/-- Events affecting one job: its timer fires (with some lateness), or a
running execution finishes. -/
inductive JobEvent
  | fire (lateness : Nat)
  | finish
deriving DecidableEq, Repr

/-- Modelled from the spec: APScheduler job execution under
max_instances and misfire_grace_time (the scheduler library is not part
of this repository).  A firing later than the grace window is
discarded; a firing while max_instances executions are already running
is skipped, not queued; otherwise an execution starts.  A finish event
ends one execution. -/
def jobStep (cfg : JobConfig) (s : JobRunState) (e : JobEvent) : JobRunState :=
  match e with
  | JobEvent.fire lateness =>
    if lateness > cfg.misfire_grace_time then s
    else if s.running ≥ cfg.max_instances then s
    else { running := s.running + 1 }
  | JobEvent.finish => { running := s.running - 1 }

/-- State of one job after a sequence of events, starting idle. -/
def runTrace (cfg : JobConfig) (events : List JobEvent) : JobRunState :=
  events.foldl (jobStep cfg) { running := 0 }

/-- The single-flight invariant is preserved by every event. -/
theorem jobStep_le (cfg : JobConfig) (s : JobRunState) (e : JobEvent)
    (h : s.running ≤ cfg.max_instances) :
    (jobStep cfg s e).running ≤ cfg.max_instances := by
  cases e with
  | fire lateness =>
    simp only [jobStep]
    split
    · exact h
    · split
      · exact h
      · next hge => exact Nat.succ_le_of_lt (lt_of_not_ge hge)
  | finish =>
    exact le_trans (Nat.sub_le _ _) h

/-- Executions never exceed max_instances along any trace. -/
theorem runTrace_le (cfg : JobConfig) (events : List JobEvent) :
    (runTrace cfg events).running ≤ cfg.max_instances := by
  unfold runTrace
  have key : ∀ (l : List JobEvent) (s : JobRunState),
      s.running ≤ cfg.max_instances →
      (l.foldl (jobStep cfg) s).running ≤ cfg.max_instances := by
    intro l
    induction l with
    | nil => intro s hs; exact hs
    | cons e t ih =>
      intro s hs
      exact ih (jobStep cfg s e) (jobStep_le cfg s e hs)
  exact key events { running := 0 } (Nat.zero_le _)

/-- C9: every periodic chain job is registered single-flight
(max_instances 1 with coalescing and a misfire grace window), and under
the modelled semantics no event trace ever has two executions of the
same job running concurrently - a timer firing while the job runs is
skipped, not queued. -/
theorem single_flight_per_job (cfg : JobConfig)
    (hc : cfg ∈ setup_chain_schedules) (events : List JobEvent) :
    cfg.max_instances = 1
    ∧ cfg.coalesce = true
    ∧ 0 < cfg.misfire_grace_time
    ∧ (runTrace cfg events).running ≤ 1 := by
  have hmax : cfg.max_instances = 1 ∧ cfg.coalesce = true ∧ 0 < cfg.misfire_grace_time := by
    simp only [setup_chain_schedules, List.mem_cons, List.not_mem_nil, or_false] at hc
    rcases hc with rfl | rfl | rfl | rfl <;> refine ⟨rfl, rfl, by norm_num⟩
  refine ⟨hmax.1, hmax.2.1, hmax.2.2, ?_⟩
  rw [← hmax.1]
  exact runTrace_le cfg events

/-- The news job configuration, for the C9 witness. -/
def newsChainJob : JobConfig :=
  { id := "news_chain", interval_seconds := 7200, max_instances := 1,
    coalesce := true, misfire_grace_time := 300 }

/-- C9 witness: the news job with a long-running execution - a second
fire while it runs is skipped, so the counter never exceeds one. -/
theorem single_flight_per_job_witness :
    newsChainJob.max_instances = 1
    ∧ newsChainJob.coalesce = true
    ∧ 0 < newsChainJob.misfire_grace_time
    ∧ (runTrace newsChainJob
        [JobEvent.fire 0, JobEvent.fire 0, JobEvent.fire 200, JobEvent.finish,
         JobEvent.fire 0]).running ≤ 1 :=
  single_flight_per_job newsChainJob
    (by simp [setup_chain_schedules, newsChainJob])
    [JobEvent.fire 0, JobEvent.fire 0, JobEvent.fire 200, JobEvent.finish,
     JobEvent.fire 0]

end FuturesEncho
